import Mathlib

set_option autoImplicit false

/-!
Shallow embedding of the asyncCaller-package-demo core
(src/src/asyncCaller/index.ts and src/src/tokenBucket/index.ts).

JavaScript numbers that hold status codes, token counts and delays are
modelled as `Int`; a field of a JavaScript object is modelled by `JSProp`
so that the typeof-number filter of extractStatusCodeProperties is
represented faithfully.  Timer- and promise-based behaviour is modelled as
explicit state passing: every timer callback and every queued resolver
becomes an explicit event acting on an explicit state record.
-/

namespace AsyncCallerSpec

/-! ## Status classification (asyncCaller/index.ts, lines 199-238) -/

/-- A property slot of a JavaScript value: absent, a NaN number, an actual
number, or present but not a number. -/
inductive JSProp where
  | missing : JSProp
  | nanNum : JSProp
  | num : Int → JSProp
  | nonNumber : JSProp
deriving Repr, DecidableEq

/-- The two status-like fields probed on a value or on its nested
response object. -/
structure StatusFields where
  status : JSProp
  statuscode : JSProp
deriving Repr, DecidableEq

/-- Body of a response as seen by extractErrorMessageFromResponse: either
the json() call fails, or it yields an object whose four probed fields are
given.  A field is `some s` when it is present and truthy, where `s` is
the string the code derives from it (for the error and errors fields the
JSON.stringify image, for message and error_message the value itself). -/
inductive ResponseBody where
  | parseFails : ResponseBody
  | jsonFields (error message error_message errors : Option String) : ResponseBody
deriving Repr, DecidableEq

/-- A settled JavaScript value as the retry engine inspects it: its two
direct status-like fields, an optional nested response object with the
same two fields, and a body used only for message extraction. -/
structure JSVal where
  status : JSProp
  statuscode : JSProp
  response : Option StatusFields
  body : ResponseBody
deriving Repr, DecidableEq

/-- The status field of the nested response object, `err?.response?.status`. -/
def respStatus (v : JSVal) : JSProp :=
  match v.response with
  | none => JSProp.missing
  | some r => r.status

/-- The statuscode field of the nested response object,
`err?.response?.statuscode`. -/
def respStatuscode (v : JSVal) : JSProp :=
  match v.response with
  | none => JSProp.missing
  | some r => r.statuscode

/-- The typeof-number-and-not-NaN filter applied to one property slot. -/
def numProp : JSProp → Option Int
  | JSProp.num n => some n
  | _ => none

/-- extractStatusCodeProperties: probe status, response.status, statuscode
and response.statuscode in that order and keep the numeric matches. -/
def extractStatusCodeProperties (v : JSVal) : List Int :=
  List.filterMap numProp
    [v.status, respStatus v, v.statuscode, respStatuscode v]

/-- isClientSideError: some extracted status code lies in [400, 500). -/
def isClientSideError (v : JSVal) : Bool :=
  (extractStatusCodeProperties v).any (fun p => decide (400 ≤ p) && decide (p < 500))

/-- isRateLimitedError: 429 appears among the extracted status codes. -/
def isRateLimitedError (v : JSVal) : Bool :=
  (extractStatusCodeProperties v).any (fun p => decide (p = 429))

/-- The three-way outcome classification implicit at both call sites of
the classifiers (lines 137/151 and 163/175): the rate-limited test is
applied first, the client-error test second. -/
inductive Classification where
  | rateLimited : Classification
  | clientError : Classification
  | other : Classification
deriving Repr, DecidableEq

/-- Outcome classification in call-site order. -/
def classify (v : JSVal) : Classification :=
  if isRateLimitedError v then Classification.rateLimited
  else if isClientSideError v then Classification.clientError
  else Classification.other

/-! ## Retry options and delay computation (asyncCaller/index.ts, lines 11-16, 240-278) -/

/-- The RetryOptions interface: every field is optional. -/
structure RetryOptions where
  maxRetries : Option Int
  minDelayInMs : Option Int
  maxDelayInMs : Option Int
  backoffFactor : Option Int
deriving Repr, DecidableEq

/-- defaultRetryOptions from the module header. -/
def defaultRetryOptions : RetryOptions :=
  { maxRetries := some 3, minDelayInMs := some 1000,
    maxDelayInMs := some 10000, backoffFactor := some 2 }

/-- The constructor line `options?.retryOptions ?? defaultRetryOptions`:
the default object is taken only when retryOptions is absent altogether;
a present object is stored as-is, missing fields included. -/
def resolveRetryOptions (retryOptions : Option RetryOptions) : RetryOptions :=
  match retryOptions with
  | some o => o
  | none => defaultRetryOptions

/-- A fully populated retry policy, as the engine assumes after its
non-null assertions on the four fields. -/
structure RetryPolicy where
  maxRetries : Nat
  minDelayInMs : Int
  maxDelayInMs : Int
  backoffFactor : Int
deriving Repr, DecidableEq

/-- The default policy 3 / 1000 / 10000 / 2. -/
def defaultRetryPolicy : RetryPolicy :=
  { maxRetries := 3, minDelayInMs := 1000, maxDelayInMs := 10000, backoffFactor := 2 }

/-- calculateDefaultDelay: exponential backoff capped at maxDelayInMs.
The completed try count is at least 1 in every call the engine makes. -/
def calculateDefaultDelay (p : RetryPolicy) (completedTryCount : Nat) : Int :=
  min (p.minDelayInMs * p.backoffFactor ^ (completedTryCount - 1)) p.maxDelayInMs

/-- Outcome of parsing a Retry-After header value by the JavaScript
runtime: Number.parseInt yields an integer, or (parseInt being NaN)
Date.parse yields an epoch-milliseconds timestamp, or both fail. -/
inductive ParsedRetryAfter where
  | asInt : Int → ParsedRetryAfter
  | asDate : Int → ParsedRetryAfter
  | invalid : ParsedRetryAfter
deriving Repr, DecidableEq

/-- Result of calculateRetryDelay: the returned delay, plus the amount
passed to forceWaitUntilMilisecondsPassed when the bucket is told to
force-idle (none when it is not told to). -/
structure DelayOutcome where
  delay : Int
  forcedIdleFor : Option Int
deriving Repr, DecidableEq

/-- calculateRetryDelay.  The argument `retryAfter` is none when the
headers object is absent or the Retry-After lookup yields a falsy value
(covering both the accessor-style and the plain-property lookup), and
otherwise carries the parse outcome of the header string. -/
def calculateRetryDelay (p : RetryPolicy) (completedTryCount : Nat) (now : Int)
    (retryAfter : Option ParsedRetryAfter) : DelayOutcome :=
  match retryAfter with
  | none => { delay := calculateDefaultDelay p completedTryCount, forcedIdleFor := none }
  | some (ParsedRetryAfter.asInt n) =>
      { delay := n * 1000, forcedIdleFor := some (n * 1000) }
  | some (ParsedRetryAfter.asDate t) =>
      if 0 < t then
        { delay := max (t - now) 0, forcedIdleFor := some (max (t - now) 0) }
      else
        { delay := calculateDefaultDelay p completedTryCount, forcedIdleFor := none }
  | some ParsedRetryAfter.invalid =>
      { delay := calculateDefaultDelay p completedTryCount, forcedIdleFor := none }

/-! ## Token bucket (tokenBucket/index.ts)

Timers become explicit events: the interval callback of _startInternal is
the tick event (only effective while the timer runs) and the setTimeout
callback of forceWaitUntilMilisecondsPassed is the forceEnd event (only
effective at its scheduled instant, recorded in resumeAt). -/

/-- Constructor options of the TokenBucket. -/
structure TokenBucketOptions where
  capacity : Int
  fillPerWindow : Int
  windowInMs : Int
  initialTokens : Option Int
deriving Repr, DecidableEq

/-- validate: true exactly when the constructor does not throw. -/
def validate (o : TokenBucketOptions) : Bool :=
  decide (0 < o.capacity) && decide (0 < o.fillPerWindow) && decide (0 < o.windowInMs) &&
  (match o.initialTokens with
   | none => true
   | some i => decide (0 ≤ i) && decide (i ≤ o.capacity)) &&
  decide (o.fillPerWindow ≤ o.capacity)

/-- Mutable state of a TokenBucket.  timerOn models _timerId being
non-null, resumeAt models the pending setTimeout of a forced pause, and
waitQueue holds the requested amounts of the queued consumeAsync
resolvers in FIFO order. -/
structure BucketState where
  tokens : Int
  timerOn : Bool
  forced : Bool
  resumeAt : Option Int
  waitQueue : List Int
  nextRefillAt : Int
deriving Repr, DecidableEq

/-- State right after the constructor ran at instant `now`: tokens are
initialTokens if given, else capacity, and _startInternal has run. -/
def initState (o : TokenBucketOptions) (now : Int) : BucketState :=
  { tokens :=
      match o.initialTokens with
      | none => o.capacity
      | some i => i
    timerOn := true
    forced := false
    resumeAt := none
    waitQueue := []
    nextRefillAt := now + o.windowInMs }

/-- _startInternal: refresh the next refill date and make sure the
interval timer runs. -/
def startInternal (o : TokenBucketOptions) (now : Int) (s : BucketState) : BucketState :=
  { s with nextRefillAt := now + o.windowInMs, timerOn := true }

/-- consume: lazily restart the timer outside a forced pause, then take
the amount when enough tokens are present. -/
def consume (o : TokenBucketOptions) (now amount : Int) (s : BucketState) :
    Bool × BucketState :=
  let s1 := if ¬s.timerOn ∧ ¬s.forced then startInternal o now s else s
  if amount ≤ s1.tokens then (true, { s1 with tokens := s1.tokens - amount })
  else (false, s1)

/-- _addToken: add fillPerWindow tokens, capped at capacity. -/
def addToken (o : TokenBucketOptions) (s : BucketState) : BucketState :=
  { s with tokens := min (s.tokens + o.fillPerWindow) o.capacity }

/-- Loop body of _tryResolveWaiting over an explicit copy of the queue:
while tokens remain and waiters are queued, shift the first waiter and
run its resolver, which performs consume with the requested amount.  The
first component of the invocation is the queue still to process; the
waitQueue field of the state is kept in sync with it by the caller. -/
def resolveWaitingGo (o : TokenBucketOptions) (now : Int) :
    List Int → BucketState → BucketState
  | [], s => s
  | amount :: rest, s =>
      if 0 < s.tokens then
        resolveWaitingGo o now rest (consume o now amount { s with waitQueue := rest }).2
      else s

/-- _tryResolveWaiting. -/
def tryResolveWaiting (o : TokenBucketOptions) (now : Int) (s : BucketState) : BucketState :=
  resolveWaitingGo o now s.waitQueue s

/-- Body of the interval callback installed by _startInternal: refresh
the refill date, then either add tokens and wake waiters, or stop the
timer because the bucket is full. -/
def tick (o : TokenBucketOptions) (now : Int) (s : BucketState) : BucketState :=
  let s1 := { s with nextRefillAt := now + o.windowInMs }
  if s1.tokens < o.capacity then tryResolveWaiting o now (addToken o s1)
  else { s1 with timerOn := false }

/-- forceWaitUntilMilisecondsPassed: a no-op while a forced pause is
ongoing; otherwise zero the tokens, stop the timer, raise the forced
flag and schedule the resume callback at now + delayInMs. -/
def forceWait (o : TokenBucketOptions) (now delayInMs : Int) (s : BucketState) : BucketState :=
  if s.forced then s
  else
    { s with nextRefillAt := now + delayInMs
             forced := true
             tokens := 0
             timerOn := false
             resumeAt := some (now + delayInMs) }

/-- The setTimeout callback of forceWaitUntilMilisecondsPassed: restore
the tokens to capacity, restart the timer, wake the waiters, then clear
the forced flag. -/
def forceEnd (o : TokenBucketOptions) (now : Int) (s : BucketState) : BucketState :=
  let s1 := startInternal o now { s with tokens := o.capacity }
  let s2 := tryResolveWaiting o now s1
  { s2 with forced := false, resumeAt := none }

/-- consumeAsync: lazily restart the timer, then either consume at once
(first component some result) or enqueue a waiter (first component none,
the promise is still pending). -/
def consumeAsync (o : TokenBucketOptions) (now amount : Int) (s : BucketState) :
    Option Bool × BucketState :=
  let s1 := if ¬s.timerOn ∧ ¬s.forced then startInternal o now s else s
  if amount ≤ s1.tokens then
    let r := consume o now amount s1
    (some r.1, r.2)
  else (none, { s1 with waitQueue := s1.waitQueue ++ [amount] })

/-- One observable bucket event.  Each event carries the instant at
which it happens. -/
inductive TBEvent where
  | consume (now amount : Int) : TBEvent
  | consumeAsync (now amount : Int) : TBEvent
  | tick (now : Int) : TBEvent
  | forceWait (now delayInMs : Int) : TBEvent
  | forceEnd (now : Int) : TBEvent
deriving Repr, DecidableEq

/-- Effect of one event on the bucket state.  A tick fires only while
the interval timer runs; the forced-resume callback fires only at the
instant it was scheduled for. -/
def stepTB (o : TokenBucketOptions) (s : BucketState) : TBEvent → BucketState
  | TBEvent.consume now amount => (consume o now amount s).2
  | TBEvent.consumeAsync now amount => (consumeAsync o now amount s).2
  | TBEvent.tick now => if s.timerOn then tick o now s else s
  | TBEvent.forceWait now d => forceWait o now d s
  | TBEvent.forceEnd now =>
      match s.resumeAt with
      | some t => if now = t then forceEnd o now s else s
      | none => s

/-- Run a list of events in order. -/
def runTB (o : TokenBucketOptions) (s : BucketState) : List TBEvent → BucketState
  | [] => s
  | e :: es => runTB o (stepTB o s e) es

/-- The amount an event consumes is nonnegative (trivially true for
events that consume nothing). -/
def eventAmountNonneg : TBEvent → Bool
  | TBEvent.consume _ amount => decide (0 ≤ amount)
  | TBEvent.consumeAsync _ amount => decide (0 ≤ amount)
  | _ => true

/-! ## Call scheduler (asyncCaller/index.ts, lines 76-96 and 189-197)

The admission queue holds opaque resolvers, so only its length matters
for the concurrency invariant; runningTasks is an integer exactly as in
the source. -/

/-- Scheduler counters: tasks in flight and tasks queued for admission. -/
structure SchedulerState where
  runningTasks : Int
  queueLength : Nat
deriving Repr, DecidableEq

/-- processTaskQueue: admit queued tasks while a concurrency slot is
free, incrementing runningTasks for each admission. -/
def processTaskQueue (concurrency : Int) (s : SchedulerState) : SchedulerState :=
  if h : s.runningTasks < concurrency ∧ 0 < s.queueLength then
    processTaskQueue concurrency
      { runningTasks := s.runningTasks + 1, queueLength := s.queueLength - 1 }
  else s
termination_by s.queueLength
decreasing_by omega

/-- The enqueue step of call: push the resolver, then drain the queue. -/
def submit (concurrency : Int) (s : SchedulerState) : SchedulerState :=
  processTaskQueue concurrency { s with queueLength := s.queueLength + 1 }

/-- The finally block of executeAndHandleErrors: decrement runningTasks
on terminal completion, then drain the queue. -/
def complete (concurrency : Int) (s : SchedulerState) : SchedulerState :=
  processTaskQueue concurrency { s with runningTasks := s.runningTasks - 1 }

/-- States reachable from a freshly constructed AsyncCaller by
submissions and terminal completions.  A completion presupposes a task in
flight, because only an admitted task reaches the finally block. -/
inductive SchedReach (concurrency : Int) : SchedulerState → Prop where
  | init : SchedReach concurrency { runningTasks := 0, queueLength := 0 }
  | submit {s : SchedulerState} : SchedReach concurrency s →
      SchedReach concurrency (submit concurrency s)
  | complete {s : SchedulerState} : SchedReach concurrency s →
      1 ≤ s.runningTasks → SchedReach concurrency (complete concurrency s)

/-! ## Retry engine (asyncCaller/index.ts, lines 98-187)

The token-consumption loop and the backoff sleeps are omitted: they
decide when the next attempt runs, never which outcome or how many
invocations occur.  The delay amounts themselves are settled separately
through calculateRetryDelay and calculateDefaultDelay. -/

/-- extractErrorMessageFromResponse: probe the parsed body fields in the
order error, message, error_message, errors; undefined when the body does
not parse or no probed field is truthy. -/
def extractErrorMessageFromResponse : ResponseBody → Option String
  | ResponseBody.parseFails => none
  | ResponseBody.jsonFields e m em es =>
      match e with
      | some s => some s
      | none =>
          match m with
          | some s => some s
          | none =>
              match em with
              | some s => some s
              | none => es

/-- A value flowing through the rejection paths of the engine: either a
caller-produced JavaScript value, or an Error object the engine built
itself with the given message. -/
inductive EngineVal where
  | js : JSVal → EngineVal
  | synthesized : String → EngineVal
deriving Repr, DecidableEq

/-- isRateLimitedError lifted to engine values: an Error object built by
the engine carries none of the four status-like fields, so nothing is
extracted from it. -/
def isRateLimitedErrorE : EngineVal → Bool
  | EngineVal.js v => isRateLimitedError v
  | EngineVal.synthesized _ => false

/-- isClientSideError lifted to engine values, as above. -/
def isClientSideErrorE : EngineVal → Bool
  | EngineVal.js v => isClientSideError v
  | EngineVal.synthesized _ => false

/-- Body seen when an engine value is fed to
extractErrorMessageFromResponse: an Error object built by the engine has
no json method, so the extraction attempt fails. -/
def bodyOfE : EngineVal → ResponseBody
  | EngineVal.js v => v.body
  | EngineVal.synthesized _ => ResponseBody.parseFails

/-- The exhausted branch of executeWithRetry (lines 122-133): the last
captured error if any, else an Error synthesized from the last captured
response when a message can be extracted, else a generic Error. -/
def exhaustedError (lastResponse lastError : Option EngineVal) : EngineVal :=
  match lastError with
  | some e => e
  | none =>
      match lastResponse with
      | some r =>
          match extractErrorMessageFromResponse (bodyOfE r) with
          | some msg => EngineVal.synthesized msg
          | none => EngineVal.synthesized "Max retries exceeded."
      | none => EngineVal.synthesized "Max retries exceeded."

/-- How one invocation of the wrapped operation settles. -/
inductive Settlement where
  | fulfilled : JSVal → Settlement
  | rejected : JSVal → Settlement
deriving Repr, DecidableEq

/-- How the promise returned by executeWithRetry settles. -/
inductive RunResult where
  | ok : JSVal → RunResult
  | err : EngineVal → RunResult
deriving Repr, DecidableEq

/-- Whether a run result is a rejection. -/
def RunResult.isErr : RunResult → Bool
  | RunResult.ok _ => false
  | RunResult.err _ => true

/-- executeWithRetry.  The operation is a map from attempt index
(1-based) to its settlement; the result pairs the final settlement of the
returned promise with the number of op invocations performed.

The source builds the chain fn().then(H).catch(C).  When H handles a
rate-limited fulfillment it returns the recursive call, and a rejection
of that recursive call is then processed by this same frame through C;
the body of C therefore appears twice below, once for that reprocessing
and once for a direct rejection of fn().  When H detects a client-side
error it sets directlyReturnErrorAsResult and throws the result, which C
then returns, so the promise fulfills with the result. -/
def executeWithRetry (p : RetryPolicy) (op : Nat → Settlement) (tryCount : Nat)
    (lastResponse lastError : Option EngineVal) : RunResult × Nat :=
  if h1 : p.maxRetries + 1 < tryCount then
    (RunResult.err (exhaustedError lastResponse lastError), 0)
  else
    match op tryCount with
    | Settlement.fulfilled result =>
        if isRateLimitedError result then
          let inner := executeWithRetry p op (tryCount + 1) (some (EngineVal.js result)) lastError
          match inner.1 with
          | RunResult.ok w => (RunResult.ok w, inner.2 + 1)
          | RunResult.err e =>
              if tryCount = p.maxRetries + 1 then (RunResult.err e, inner.2 + 1)
              else if isRateLimitedErrorE e then
                let r := executeWithRetry p op (tryCount + 1) lastResponse (some e)
                (r.1, inner.2 + r.2 + 1)
              else if isClientSideErrorE e then (RunResult.err e, inner.2 + 1)
              else
                let r := executeWithRetry p op (tryCount + 1) (some e) lastError
                (r.1, inner.2 + r.2 + 1)
        else if isClientSideError result then (RunResult.ok result, 1)
        else (RunResult.ok result, 1)
    | Settlement.rejected e0 =>
        if tryCount = p.maxRetries + 1 then (RunResult.err (EngineVal.js e0), 1)
        else if isRateLimitedErrorE (EngineVal.js e0) then
          let r := executeWithRetry p op (tryCount + 1) lastResponse (some (EngineVal.js e0))
          (r.1, r.2 + 1)
        else if isClientSideErrorE (EngineVal.js e0) then (RunResult.err (EngineVal.js e0), 1)
        else
          let r := executeWithRetry p op (tryCount + 1) (some (EngineVal.js e0)) lastError
          (r.1, r.2 + 1)
termination_by p.maxRetries + 2 - tryCount
decreasing_by all_goals omega

/-! ## Concrete values used by counterexamples and witnesses -/

/-- The default token bucket options of the module header. -/
def demoOptions : TokenBucketOptions :=
  { capacity := 10, fillPerWindow := 1, windowInMs := 100, initialTokens := none }

/-- A response whose only status-like field is 404. -/
def response404 : JSVal :=
  { status := JSProp.num 404, statuscode := JSProp.missing, response := none,
    body := ResponseBody.parseFails }

/-- A response whose only status-like field is 429, with a body that does
not parse as JSON. -/
def response429 : JSVal :=
  { status := JSProp.num 429, statuscode := JSProp.missing, response := none,
    body := ResponseBody.parseFails }

/-- A plain network error: no status-like field anywhere. -/
def plainNetworkError : JSVal :=
  { status := JSProp.missing, statuscode := JSProp.missing, response := none,
    body := ResponseBody.parseFails }

/-- A value with the given body and no status-like fields. -/
def bodyOnly (b : ResponseBody) : JSVal :=
  { status := JSProp.missing, statuscode := JSProp.missing, response := none, body := b }

/-- A retry policy with a zero retry budget. -/
def zeroRetryPolicy : RetryPolicy :=
  { maxRetries := 0, minDelayInMs := 1000, maxDelayInMs := 10000, backoffFactor := 2 }

/-! ## Predicates used by the invariant and forced-pause statements -/

/-- The token-count invariant of the bucket, strengthened with the fact
that every queued waiter requested a nonnegative amount. -/
def BucketInv (o : TokenBucketOptions) (s : BucketState) : Prop :=
  0 ≤ s.tokens ∧ s.tokens ≤ o.capacity ∧ ∀ a ∈ s.waitQueue, 0 ≤ a

/-- A bucket in the middle of a forced pause whose resume callback is
scheduled for instant t. -/
def PausedAt (t : Int) (s : BucketState) : Prop :=
  s.forced = true ∧ s.tokens = 0 ∧ s.timerOn = false ∧ s.resumeAt = some t

/-- Events allowed while a pause scheduled to end at instant t is
ongoing: consumption of at least one token, timer ticks, further calls
of forceWaitUntilMilisecondsPassed, and resume callbacks at any other
instant. -/
def preElapse (t : Int) : TBEvent → Bool
  | TBEvent.consume _ amount => decide (1 ≤ amount)
  | TBEvent.consumeAsync _ amount => decide (1 ≤ amount)
  | TBEvent.tick _ => true
  | TBEvent.forceWait _ _ => true
  | TBEvent.forceEnd now => decide (now ≠ t)

/-! ## Step lemmas for the retry engine -/

/-- Unfolding of executeWithRetry when the attempt budget is already
exceeded on entry. -/
theorem eWR_exhausted (p : RetryPolicy) (op : Nat → Settlement) (t : Nat)
    (lr le : Option EngineVal) (h : p.maxRetries + 1 < t) :
    executeWithRetry p op t lr le = (RunResult.err (exhaustedError lr le), 0) := by
  rw [executeWithRetry]
  rw [dif_pos h]

/-- Unfolding for a rejection at the last budgeted attempt: the error is
rethrown as-is. -/
theorem eWR_rejected_last (p : RetryPolicy) (op : Nat → Settlement) (t : Nat)
    (lr le : Option EngineVal) (e : JSVal)
    (hle : ¬ p.maxRetries + 1 < t) (ht : t = p.maxRetries + 1)
    (hop : op t = Settlement.rejected e) :
    executeWithRetry p op t lr le = (RunResult.err (EngineVal.js e), 1) := by
  rw [executeWithRetry, dif_neg hle, hop]
  simp [ht]

/-- Unfolding for an unclassified rejection with budget remaining: retry
with the error carried in the lastResponse slot. -/
theorem eWR_rejected_retry (p : RetryPolicy) (op : Nat → Settlement) (t : Nat)
    (lr le : Option EngineVal) (e : JSVal)
    (hle : ¬ p.maxRetries + 1 < t) (ht : ¬ t = p.maxRetries + 1)
    (hop : op t = Settlement.rejected e)
    (hrl : isRateLimitedError e = false) (hcs : isClientSideError e = false) :
    executeWithRetry p op t lr le =
      ((executeWithRetry p op (t + 1) (some (EngineVal.js e)) le).1,
       (executeWithRetry p op (t + 1) (some (EngineVal.js e)) le).2 + 1) := by
  rw [executeWithRetry, dif_neg hle, hop]
  simp only [isRateLimitedErrorE, isClientSideErrorE, hrl, hcs, if_neg ht,
    Bool.false_eq_true, if_false]

/-- Unfolding for a fulfillment classified as a client-side error: the
promise fulfills with the result after one invocation. -/
theorem eWR_fulfilled_client (p : RetryPolicy) (op : Nat → Settlement) (t : Nat)
    (lr le : Option EngineVal) (v : JSVal)
    (hle : ¬ p.maxRetries + 1 < t)
    (hop : op t = Settlement.fulfilled v)
    (hrl : isRateLimitedError v = false) (hcs : isClientSideError v = true) :
    executeWithRetry p op t lr le = (RunResult.ok v, 1) := by
  rw [executeWithRetry, dif_neg hle, hop]
  simp only [hrl, hcs, Bool.false_eq_true, if_false, if_true]

/-- Unfolding for a rate-limited fulfillment at the last budgeted attempt
whose recursive continuation rejects: the frame rethrows that rejection. -/
theorem eWR_fulfilled_rl (p : RetryPolicy) (op : Nat → Settlement) (t : Nat)
    (lr le : Option EngineVal) (v : JSVal) (e : EngineVal) (n : Nat)
    (hle : ¬ p.maxRetries + 1 < t) (ht : t = p.maxRetries + 1)
    (hop : op t = Settlement.fulfilled v)
    (hrl : isRateLimitedError v = true)
    (hinner : executeWithRetry p op (t + 1) (some (EngineVal.js v)) le
        = (RunResult.err e, n)) :
    executeWithRetry p op t lr le = (RunResult.err e, n + 1) := by
  rw [executeWithRetry, dif_neg hle, hop]
  simp only [hrl, if_true, hinner, if_pos ht]

/-! ## Claim C1 -/

/-- Claim C1 counterexample: an operation that always resolves with a
response of status 404 does NOT make the promise reject; the promise
fulfills with that response as its value (directlyReturnErrorAsResult
makes the catch handler return the thrown result), with the operation
invoked exactly once. -/
theorem client_error_fulfillment_not_rejected :
    executeWithRetry defaultRetryPolicy (fun _ => Settlement.fulfilled response404) 1 none none
      = (RunResult.ok response404, 1)
    ∧ RunResult.isErr
        (executeWithRetry defaultRetryPolicy
          (fun _ => Settlement.fulfilled response404) 1 none none).1 = false := by
  have h := eWR_fulfilled_client defaultRetryPolicy
    (fun _ => Settlement.fulfilled response404) 1 none none response404
    (by decide) rfl (by decide) (by decide)
  exact ⟨h, by rw [h]; rfl⟩

/-- Claim C1 (amended): for every operation whose first invocation
resolves with a response carrying a status in [400,500) other than 429,
the promise returned by the retry engine settles immediately by
FULFILLING with that outcome as its value (it is returned as the result,
not raised as a rejection), and the operation is invoked exactly once (no
retry is attempted).  AsyncCaller.call forwards this settlement
unchanged. -/
theorem client_error_fulfillment_settles_once (p : RetryPolicy) (op : Nat → Settlement)
    (v : JSVal) (hop : op 1 = Settlement.fulfilled v)
    (hrl : isRateLimitedError v = false) (hcs : isClientSideError v = true) :
    executeWithRetry p op 1 none none = (RunResult.ok v, 1)
    ∧ RunResult.isErr (executeWithRetry p op 1 none none).1 = false := by
  have h := eWR_fulfilled_client p op 1 none none v (by omega) hop hrl hcs
  exact ⟨h, by rw [h]; rfl⟩

/-- Witness for claim C1: instantiation at the 404 response. -/
theorem client_error_fulfillment_settles_once_witness :
    executeWithRetry zeroRetryPolicy (fun _ => Settlement.fulfilled response404) 1 none none
      = (RunResult.ok response404, 1)
    ∧ RunResult.isErr (executeWithRetry zeroRetryPolicy
        (fun _ => Settlement.fulfilled response404) 1 none none).1 = false := by
  exact client_error_fulfillment_settles_once zeroRetryPolicy _
    response404 rfl (by decide) (by decide)

/-! ## Claim C2 -/

/-- For an operation that rejects with an unclassified error at every
attempt, the run starting at attempt index t with n attempts left before
the budget boundary ends by rethrowing the error of attempt
maxRetries + 1 after n + 1 further invocations. -/
theorem eWR_all_rejected (p : RetryPolicy) (op : Nat → Settlement) (e : Nat → JSVal)
    (hop : ∀ k, op k = Settlement.rejected (e k))
    (hrl : ∀ k, isRateLimitedError (e k) = false)
    (hcs : ∀ k, isClientSideError (e k) = false) :
    ∀ (n t : Nat), t + n = p.maxRetries + 1 →
      ∀ (lr le : Option EngineVal),
        executeWithRetry p op t lr le
          = (RunResult.err (EngineVal.js (e (p.maxRetries + 1))), n + 1) := by
  intro n
  induction n with
  | zero =>
      intro t ht lr le
      have ht' : t = p.maxRetries + 1 := by omega
      rw [eWR_rejected_last p op t lr le (e t) (by omega) ht' (hop t)]
      rw [ht']
  | succ n ih =>
      intro t ht lr le
      rw [eWR_rejected_retry p op t lr le (e t) (by omega) (by omega) (hop t) (hrl t) (hcs t)]
      rw [ih (t + 1) (by omega) (some (EngineVal.js (e t))) le]

/-- Claim C2: for every operation that always rejects with an
unclassified error (neither rate-limited nor client error), the promise
returned by the retry engine rejects with the error of the last attempt,
and the operation is invoked exactly maxRetries + 1 times (4 under the
default RetryPolicy, as the witness instantiates). -/
theorem unclassified_rejections_exhaust_budget (p : RetryPolicy) (op : Nat → Settlement)
    (e : Nat → JSVal)
    (hop : ∀ k, op k = Settlement.rejected (e k))
    (hrl : ∀ k, isRateLimitedError (e k) = false)
    (hcs : ∀ k, isClientSideError (e k) = false) :
    executeWithRetry p op 1 none none
      = (RunResult.err (EngineVal.js (e (p.maxRetries + 1))), p.maxRetries + 1) :=
  eWR_all_rejected p op e hop hrl hcs p.maxRetries 1 (by omega) none none

/-- Witness for claim C2: under the default policy a constantly failing
operation is invoked 4 times and the final rejection is the last error. -/
theorem unclassified_rejections_exhaust_budget_witness :
    executeWithRetry defaultRetryPolicy (fun _ => Settlement.rejected plainNetworkError) 1 none none
      = (RunResult.err (EngineVal.js plainNetworkError), 4) := by
  exact unclassified_rejections_exhaust_budget defaultRetryPolicy _
    (fun _ => plainNetworkError) (fun _ => rfl) (fun _ => rfl) (fun _ => rfl)

/-! ## Claim C7 -/

/-- Claim C7 counterexample: with a zero retry budget and an operation
that always resolves rate-limited with a body that fails to parse, the
engine exhausts its budget and throws the generic Error whose message is
"Max retries exceeded." — a JSON parse failure does NOT yield a
"no message available" message. -/
theorem exhausted_parse_failure_generic_message :
    executeWithRetry zeroRetryPolicy (fun _ => Settlement.fulfilled response429) 1 none none
      = (RunResult.err (EngineVal.synthesized "Max retries exceeded."), 1)
    ∧ "Max retries exceeded." ≠ "no message available" := by
  refine ⟨?_, by decide⟩
  have h2 : executeWithRetry zeroRetryPolicy (fun _ => Settlement.fulfilled response429) 2
      (some (EngineVal.js response429)) none
      = (RunResult.err (EngineVal.synthesized "Max retries exceeded."), 0) := by
    rw [eWR_exhausted _ _ _ _ _ (by decide)]
    rfl
  exact eWR_fulfilled_rl zeroRetryPolicy _ 1 none none response429 _ 0
    (by decide) (by decide) rfl (by decide) h2

/-- Claim C7 (amended): when the attempt budget is exhausted, the error
thrown by the retry engine is the last captured error if one exists;
otherwise an error whose message is extracted from the last captured
response body by reading, in priority order, an error field (already
stringified), else message, else error_message, else errors (stringified);
when the extraction yields nothing — in particular on any JSON parse
failure — the generic "Max retries exceeded." error is thrown (no
"no message available" message exists in the program). -/
theorem exhausted_error_selection (p : RetryPolicy) (op : Nat → Settlement) (t : Nat)
    (lr : Option EngineVal) (le : EngineVal)
    (m em es : Option String) (s1 s2 s3 s4 : String)
    (ht : p.maxRetries + 1 < t) :
    executeWithRetry p op t lr (some le) = (RunResult.err le, 0)
    ∧ executeWithRetry p op t
        (some (EngineVal.js (bodyOnly (ResponseBody.jsonFields (some s1) m em es)))) none
        = (RunResult.err (EngineVal.synthesized s1), 0)
    ∧ executeWithRetry p op t
        (some (EngineVal.js (bodyOnly (ResponseBody.jsonFields none (some s2) em es)))) none
        = (RunResult.err (EngineVal.synthesized s2), 0)
    ∧ executeWithRetry p op t
        (some (EngineVal.js (bodyOnly (ResponseBody.jsonFields none none (some s3) es)))) none
        = (RunResult.err (EngineVal.synthesized s3), 0)
    ∧ executeWithRetry p op t
        (some (EngineVal.js (bodyOnly (ResponseBody.jsonFields none none none (some s4))))) none
        = (RunResult.err (EngineVal.synthesized s4), 0)
    ∧ executeWithRetry p op t
        (some (EngineVal.js (bodyOnly (ResponseBody.jsonFields none none none none)))) none
        = (RunResult.err (EngineVal.synthesized "Max retries exceeded."), 0)
    ∧ executeWithRetry p op t (some (EngineVal.js (bodyOnly ResponseBody.parseFails))) none
        = (RunResult.err (EngineVal.synthesized "Max retries exceeded."), 0)
    ∧ executeWithRetry p op t none none
        = (RunResult.err (EngineVal.synthesized "Max retries exceeded."), 0) := by
  refine ⟨?_, ?_, ?_, ?_, ?_, ?_, ?_, ?_⟩ <;>
    rw [eWR_exhausted p op t _ _ ht] <;>
      simp [exhaustedError, bodyOfE, bodyOnly, extractErrorMessageFromResponse]

/-- Witness for claim C7: instantiation of every selection case at
attempt index 5 under the default policy. -/
theorem exhausted_error_selection_witness :
    executeWithRetry defaultRetryPolicy (fun _ => Settlement.fulfilled response404) 5 none
        (some (EngineVal.synthesized "boom")) = (RunResult.err (EngineVal.synthesized "boom"), 0)
    ∧ executeWithRetry defaultRetryPolicy (fun _ => Settlement.fulfilled response404) 5
        (some (EngineVal.js (bodyOnly (ResponseBody.jsonFields (some "e1") none none none)))) none
        = (RunResult.err (EngineVal.synthesized "e1"), 0)
    ∧ executeWithRetry defaultRetryPolicy (fun _ => Settlement.fulfilled response404) 5
        (some (EngineVal.js (bodyOnly (ResponseBody.jsonFields none (some "e2") none none)))) none
        = (RunResult.err (EngineVal.synthesized "e2"), 0)
    ∧ executeWithRetry defaultRetryPolicy (fun _ => Settlement.fulfilled response404) 5
        (some (EngineVal.js (bodyOnly (ResponseBody.jsonFields none none (some "e3") none)))) none
        = (RunResult.err (EngineVal.synthesized "e3"), 0)
    ∧ executeWithRetry defaultRetryPolicy (fun _ => Settlement.fulfilled response404) 5
        (some (EngineVal.js (bodyOnly (ResponseBody.jsonFields none none none (some "e4"))))) none
        = (RunResult.err (EngineVal.synthesized "e4"), 0)
    ∧ executeWithRetry defaultRetryPolicy (fun _ => Settlement.fulfilled response404) 5
        (some (EngineVal.js (bodyOnly (ResponseBody.jsonFields none none none none)))) none
        = (RunResult.err (EngineVal.synthesized "Max retries exceeded."), 0)
    ∧ executeWithRetry defaultRetryPolicy (fun _ => Settlement.fulfilled response404) 5
        (some (EngineVal.js (bodyOnly ResponseBody.parseFails))) none
        = (RunResult.err (EngineVal.synthesized "Max retries exceeded."), 0)
    ∧ executeWithRetry defaultRetryPolicy (fun _ => Settlement.fulfilled response404) 5 none none
        = (RunResult.err (EngineVal.synthesized "Max retries exceeded."), 0) := by
  exact exhausted_error_selection defaultRetryPolicy _ 5 none
    (EngineVal.synthesized "boom") none none none "e1" "e2" "e3" "e4" (by decide)

/-! ## Claim C8 -/

/-- Claim C8: for every attempt count n ≥ 1, calculateDefaultDelay is
min(minDelayInMs * backoffFactor ^ (n - 1), maxDelayInMs), and with the
default options it yields 1000, 2000, 4000, 8000, 10000, 10000 for
n = 1..6. -/
theorem calculateDefaultDelay_spec (p : RetryPolicy) (n : Nat) (h : 1 ≤ n) :
    calculateDefaultDelay p n = min (p.minDelayInMs * p.backoffFactor ^ (n - 1)) p.maxDelayInMs
    ∧ calculateDefaultDelay defaultRetryPolicy 1 = 1000
    ∧ calculateDefaultDelay defaultRetryPolicy 2 = 2000
    ∧ calculateDefaultDelay defaultRetryPolicy 3 = 4000
    ∧ calculateDefaultDelay defaultRetryPolicy 4 = 8000
    ∧ calculateDefaultDelay defaultRetryPolicy 5 = 10000
    ∧ calculateDefaultDelay defaultRetryPolicy 6 = 10000 :=
  ⟨rfl, by decide, by decide, by decide, by decide, by decide, by decide⟩

/-- Witness for claim C8: instantiation at n = 1. -/
theorem calculateDefaultDelay_spec_witness :
    calculateDefaultDelay defaultRetryPolicy 1
        = min (defaultRetryPolicy.minDelayInMs
            * defaultRetryPolicy.backoffFactor ^ (1 - 1)) defaultRetryPolicy.maxDelayInMs
    ∧ calculateDefaultDelay defaultRetryPolicy 1 = 1000
    ∧ calculateDefaultDelay defaultRetryPolicy 2 = 2000
    ∧ calculateDefaultDelay defaultRetryPolicy 3 = 4000
    ∧ calculateDefaultDelay defaultRetryPolicy 4 = 8000
    ∧ calculateDefaultDelay defaultRetryPolicy 5 = 10000
    ∧ calculateDefaultDelay defaultRetryPolicy 6 = 10000 := by
  exact calculateDefaultDelay_spec defaultRetryPolicy 1 (by decide)

/-! ## Claim C4 -/

/-- Claim C4 counterexample: the header value
"Wed, 31 Dec 1969 00:00:00 GMT" is a parseable HTTP date (its epoch
timestamp is -86400000), yet because Date.parse must be positive the code
takes the exponential fall-back without forcing the bucket idle, while
the claim demands the delay max(date - now, 0) = 0 together with a forced
idle of that length. -/
theorem nonpositive_date_retry_after_falls_back :
    calculateRetryDelay defaultRetryPolicy 1 1700000000000
        (some (ParsedRetryAfter.asDate (-86400000)))
      = { delay := 1000, forcedIdleFor := none }
    ∧ max ((-86400000 : Int) - 1700000000000) 0 = 0
    ∧ (1000 : Int) ≠ 0 := by decide

/-- Claim C4 (amended): for every rate-limited outcome, the retry delay
is the Retry-After value times 1000 when it parses as an integer, with
the bucket forced idle for exactly that delay; else max(date - now, 0)
when it parses as an HTTP date WITH A POSITIVE epoch timestamp, with the
bucket forced idle for exactly that delay; else (header absent,
unparseable, or a date at or before the epoch) the default exponential
delay for this attempt, without forcing the bucket idle. -/
theorem calculateRetryDelay_cases (p : RetryPolicy) (n : Nat) (now i tpos tnp : Int)
    (hpos : 0 < tpos) (hnp : tnp ≤ 0) :
    calculateRetryDelay p n now (some (ParsedRetryAfter.asInt i))
        = { delay := i * 1000, forcedIdleFor := some (i * 1000) }
    ∧ calculateRetryDelay p n now (some (ParsedRetryAfter.asDate tpos))
        = { delay := max (tpos - now) 0, forcedIdleFor := some (max (tpos - now) 0) }
    ∧ calculateRetryDelay p n now (some (ParsedRetryAfter.asDate tnp))
        = { delay := calculateDefaultDelay p n, forcedIdleFor := none }
    ∧ calculateRetryDelay p n now none
        = { delay := calculateDefaultDelay p n, forcedIdleFor := none }
    ∧ calculateRetryDelay p n now (some ParsedRetryAfter.invalid)
        = { delay := calculateDefaultDelay p n, forcedIdleFor := none } := by
  refine ⟨rfl, ?_, ?_, rfl, rfl⟩
  · simp [calculateRetryDelay, hpos]
  · simp [calculateRetryDelay, if_neg (by omega : ¬ (0:Int) < tnp)]

/-- Witness for claim C4: instantiation with Retry-After parsing as the
integer 2, as the date 5000, and as the date -1. -/
theorem calculateRetryDelay_cases_witness :
    calculateRetryDelay defaultRetryPolicy 1 0 (some (ParsedRetryAfter.asInt 2))
        = { delay := 2 * 1000, forcedIdleFor := some (2 * 1000) }
    ∧ calculateRetryDelay defaultRetryPolicy 1 0 (some (ParsedRetryAfter.asDate 5000))
        = { delay := max ((5000 : Int) - 0) 0, forcedIdleFor := some (max ((5000 : Int) - 0) 0) }
    ∧ calculateRetryDelay defaultRetryPolicy 1 0 (some (ParsedRetryAfter.asDate (-1)))
        = { delay := calculateDefaultDelay defaultRetryPolicy 1, forcedIdleFor := none }
    ∧ calculateRetryDelay defaultRetryPolicy 1 0 none
        = { delay := calculateDefaultDelay defaultRetryPolicy 1, forcedIdleFor := none }
    ∧ calculateRetryDelay defaultRetryPolicy 1 0 (some ParsedRetryAfter.invalid)
        = { delay := calculateDefaultDelay defaultRetryPolicy 1, forcedIdleFor := none } := by
  exact calculateRetryDelay_cases defaultRetryPolicy 1 0 2 5000 (-1) (by decide) (by decide)

/-! ## Claim C9 -/

/-- Claim C9 is a code bug: passing a retryOptions object that sets only
minDelayInMs stores that object unchanged, so maxRetries, maxDelayInMs
and backoffFactor stay absent instead of taking the documented defaults
3 / 10000 / 2 — the whole-object fall-back of the constructor contradicts
the per-field defaults documented on the RetryOptions interface. -/
theorem partial_retryOptions_drops_defaults :
    resolveRetryOptions (some { maxRetries := none, minDelayInMs := some 500,
                                maxDelayInMs := none, backoffFactor := none })
      = { maxRetries := none, minDelayInMs := some 500,
          maxDelayInMs := none, backoffFactor := none }
    ∧ (resolveRetryOptions (some { maxRetries := none, minDelayInMs := some 500,
                                   maxDelayInMs := none, backoffFactor := none })).maxRetries
      ≠ defaultRetryOptions.maxRetries := by decide

/-! ## Claim C10 -/

/-- Claim C10 counterexample: for a value whose only extracted status is
429, isClientSideError returns true — the function itself does not
exclude 429 from [400, 500); the exclusion happens only through the
call-site ordering. -/
theorem isClientSideError_includes_429 :
    isClientSideError response429 = true
    ∧ extractStatusCodeProperties response429 = [429] := by decide

/-- Claim C10 (amended): isRateLimitedError(x) is true iff 429 appears
among the numeric statuses extracted from x; isClientSideError(x) is true
iff some extracted status falls in [400, 500) WITH 429 INCLUDED; the 429
exclusion holds only for the composite call-site classification, which
tests isRateLimitedError first: it reports a client error iff some
extracted status is in [400, 500) and 429 is not among the extracted
statuses. -/
theorem classifier_characterization (v : JSVal) :
    (isRateLimitedError v = true ↔ 429 ∈ extractStatusCodeProperties v)
    ∧ (isClientSideError v = true ↔ ∃ c ∈ extractStatusCodeProperties v, 400 ≤ c ∧ c < 500)
    ∧ (classify v = Classification.clientError ↔
        429 ∉ extractStatusCodeProperties v
          ∧ ∃ c ∈ extractStatusCodeProperties v, 400 ≤ c ∧ c < 500) := by
  have h1 : isRateLimitedError v = true ↔ 429 ∈ extractStatusCodeProperties v := by
    simp only [isRateLimitedError, List.any_eq_true, decide_eq_true_eq]
    constructor
    · rintro ⟨c, hc, rfl⟩
      exact hc
    · intro hc
      exact ⟨429, hc, rfl⟩
  have h2 : isClientSideError v = true
      ↔ ∃ c ∈ extractStatusCodeProperties v, 400 ≤ c ∧ c < 500 := by
    simp [isClientSideError, List.any_eq_true]
  refine ⟨h1, h2, ?_⟩
  unfold classify
  by_cases hrl : isRateLimitedError v = true
  · rw [if_pos hrl]
    constructor
    · intro hc
      exact Classification.noConfusion hc
    · intro hc
      exact absurd (h1.mp hrl) hc.1
  · rw [if_neg hrl]
    by_cases hcs : isClientSideError v = true
    · rw [if_pos hcs]
      constructor
      · intro _
        exact ⟨fun hm => hrl (h1.mpr hm), h2.mp hcs⟩
      · intro _
        rfl
    · rw [if_neg hcs]
      constructor
      · intro hc
        exact Classification.noConfusion hc
      · intro hc
        exact absurd (h2.mpr hc.2) hcs

/-! ## Token bucket lemmas -/

/-- Unpacking of a successful validation. -/
theorem validate_facts (o : TokenBucketOptions) (h : validate o = true) :
    0 < o.capacity ∧ 0 < o.fillPerWindow ∧ 0 < o.windowInMs
      ∧ o.fillPerWindow ≤ o.capacity
      ∧ ∀ i, o.initialTokens = some i → 0 ≤ i ∧ i ≤ o.capacity := by
  simp only [validate, Bool.and_eq_true, decide_eq_true_eq] at h
  obtain ⟨⟨⟨⟨h1, h2⟩, h3⟩, h4⟩, h5⟩ := h
  refine ⟨h1, h2, h3, h5, ?_⟩
  intro i hi
  rw [hi] at h4
  simp only [Bool.and_eq_true, decide_eq_true_eq] at h4
  exact h4

/-- consume leaves the wait queue, the forced flag and the scheduled
resume untouched. -/
theorem consume_preserves (o : TokenBucketOptions) (now amount : Int) (s : BucketState) :
    (consume o now amount s).2.waitQueue = s.waitQueue
    ∧ (consume o now amount s).2.forced = s.forced
    ∧ (consume o now amount s).2.resumeAt = s.resumeAt := by
  simp only [consume, startInternal]
  split <;> split <;> simp

/-- consume keeps the token count within bounds for a nonnegative
amount. -/
theorem consume_tokens_bounds (o : TokenBucketOptions) (now amount : Int) (s : BucketState)
    (h0 : 0 ≤ s.tokens) (h1 : s.tokens ≤ o.capacity) (ha : 0 ≤ amount) :
    0 ≤ (consume o now amount s).2.tokens ∧ (consume o now amount s).2.tokens ≤ o.capacity := by
  simp only [consume, startInternal]
  split <;> split <;> simp_all <;> omega

/-- consume never stops a running timer. -/
theorem consume_timerOn (o : TokenBucketOptions) (now amount : Int) (s : BucketState)
    (h : s.timerOn = true) : (consume o now amount s).2.timerOn = true := by
  simp only [consume, startInternal]
  split <;> split <;> simp_all

/-- While paused, a consume of a positive amount fails and leaves the
state untouched. -/
theorem consume_fails_when_paused (o : TokenBucketOptions) (now amount t : Int)
    (s : BucketState) (hp : PausedAt t s) (ha : 1 ≤ amount) :
    consume o now amount s = (false, s) := by
  obtain ⟨hf, htok, htm, hr⟩ := hp
  have hc1 : ¬(¬s.timerOn ∧ ¬s.forced) := by simp [hf]
  have hc2 : ¬ amount ≤ s.tokens := by omega
  simp only [consume, startInternal]
  rw [if_neg hc1, if_neg hc2]

/-- While paused, consumeAsync of a positive amount only appends a
waiter. -/
theorem consumeAsync_paused (o : TokenBucketOptions) (now amount t : Int)
    (s : BucketState) (hp : PausedAt t s) (ha : 1 ≤ amount) :
    (consumeAsync o now amount s).2 = { s with waitQueue := s.waitQueue ++ [amount] } := by
  obtain ⟨hf, htok, htm, hr⟩ := hp
  have hc1 : ¬(¬s.timerOn ∧ ¬s.forced) := by simp [hf]
  have hc2 : ¬ amount ≤ s.tokens := by omega
  simp only [consumeAsync, startInternal]
  rw [if_neg hc1, if_neg hc2]

/-- The waiter-resolution loop keeps the token bounds and the
nonnegativity of the queued amounts. -/
theorem resolveWaitingGo_inv (o : TokenBucketOptions) (now : Int) (q : List Int) :
    ∀ (s : BucketState), 0 ≤ s.tokens → s.tokens ≤ o.capacity → (∀ a ∈ q, 0 ≤ a) →
      (∀ a ∈ s.waitQueue, 0 ≤ a) →
      0 ≤ (resolveWaitingGo o now q s).tokens
        ∧ (resolveWaitingGo o now q s).tokens ≤ o.capacity
        ∧ ∀ a ∈ (resolveWaitingGo o now q s).waitQueue, 0 ≤ a := by
  induction q with
  | nil =>
      intro s h0 h1 hq hw
      exact ⟨h0, h1, hw⟩
  | cons a rest ih =>
      intro s h0 h1 hq hw
      rw [resolveWaitingGo]
      by_cases ht : 0 < s.tokens
      · rw [if_pos ht]
        have hq' : ∀ x ∈ rest, 0 ≤ x := fun x hx => hq x (List.mem_cons_of_mem _ hx)
        have hcw := consume_preserves o now a { s with waitQueue := rest }
        have hcb := consume_tokens_bounds o now a { s with waitQueue := rest } h0 h1
          (hq a (List.mem_cons_self _ _))
        exact ih _ hcb.1 hcb.2 hq' (by rw [hcw.1]; exact hq')
      · rw [if_neg ht]
        exact ⟨h0, h1, hw⟩

/-- The waiter-resolution loop never stops a running timer. -/
theorem resolveWaitingGo_timerOn (o : TokenBucketOptions) (now : Int) (q : List Int) :
    ∀ (s : BucketState), s.timerOn = true → (resolveWaitingGo o now q s).timerOn = true := by
  induction q with
  | nil =>
      intro s h
      exact h
  | cons a rest ih =>
      intro s h
      rw [resolveWaitingGo]
      by_cases ht : 0 < s.tokens
      · rw [if_pos ht]
        exact ih _ (consume_timerOn o now a { s with waitQueue := rest } h)
      · rw [if_neg ht]
        exact h

/-- When the loop starts on a state whose queue matches the processed
list, the remaining queue is never longer than that list. -/
theorem resolveWaitingGo_length (o : TokenBucketOptions) (now : Int) (q : List Int) :
    ∀ (s : BucketState), s.waitQueue = q →
      (resolveWaitingGo o now q s).waitQueue.length ≤ q.length := by
  induction q with
  | nil =>
      intro s hs
      simp [resolveWaitingGo, hs]
  | cons a rest ih =>
      intro s hs
      rw [resolveWaitingGo]
      by_cases ht : 0 < s.tokens
      · rw [if_pos ht]
        have hcw := (consume_preserves o now a { s with waitQueue := rest }).1
        have := ih (consume o now a { s with waitQueue := rest }).2 hcw
        simp only [List.length_cons]
        omega
      · rw [if_neg ht]
        rw [hs]

/-- The interval-callback body preserves the invariant. -/
theorem tick_inv (o : TokenBucketOptions) (now : Int) (s : BucketState)
    (h0 : 0 ≤ s.tokens) (h1 : s.tokens ≤ o.capacity) (hw : ∀ a ∈ s.waitQueue, 0 ≤ a)
    (hfill : 0 ≤ o.fillPerWindow) (hcap : 0 ≤ o.capacity) :
    BucketInv o (tick o now s) := by
  simp only [tick, tryResolveWaiting]
  split
  · refine resolveWaitingGo_inv o now _ _ ?_ ?_ hw hw
    · show (0:Int) ≤ min (s.tokens + o.fillPerWindow) o.capacity
      exact le_min (by omega) hcap
    · show min (s.tokens + o.fillPerWindow) o.capacity ≤ o.capacity
      exact min_le_right _ _
  · exact ⟨h0, h1, hw⟩

/-- The forced-resume callback preserves the invariant. -/
theorem forceEnd_inv (o : TokenBucketOptions) (now : Int) (s : BucketState)
    (hw : ∀ a ∈ s.waitQueue, 0 ≤ a) (hcap : 0 ≤ o.capacity) :
    BucketInv o (forceEnd o now s) := by
  simp only [forceEnd, startInternal, tryResolveWaiting]
  have h := resolveWaitingGo_inv o now s.waitQueue
    { s with tokens := o.capacity, nextRefillAt := now + o.windowInMs, timerOn := true }
    hcap (le_refl _) hw hw
  exact ⟨h.1, h.2.1, h.2.2⟩

/-- consumeAsync preserves the invariant for a nonnegative amount. -/
theorem consumeAsync_inv (o : TokenBucketOptions) (now amount : Int) (s : BucketState)
    (h0 : 0 ≤ s.tokens) (h1 : s.tokens ≤ o.capacity) (hw : ∀ a ∈ s.waitQueue, 0 ≤ a)
    (ha : 0 ≤ amount) :
    BucketInv o (consumeAsync o now amount s).2 := by
  simp only [consumeAsync, startInternal]
  split
  · split
    · have hb := consume_tokens_bounds o now amount
        { s with nextRefillAt := now + o.windowInMs, timerOn := true } h0 h1 ha
      have hp := consume_preserves o now amount
        { s with nextRefillAt := now + o.windowInMs, timerOn := true }
      exact ⟨hb.1, hb.2, by rw [hp.1]; exact hw⟩
    · refine ⟨h0, h1, ?_⟩
      intro a ha2
      simp only [List.mem_append, List.mem_singleton] at ha2
      cases ha2 with
      | inl ha2 => exact hw a ha2
      | inr ha2 => omega
  · split
    · have hb := consume_tokens_bounds o now amount s h0 h1 ha
      have hp := consume_preserves o now amount s
      exact ⟨hb.1, hb.2, by rw [hp.1]; exact hw⟩
    · refine ⟨h0, h1, ?_⟩
      intro a ha2
      simp only [List.mem_append, List.mem_singleton] at ha2
      cases ha2 with
      | inl ha2 => exact hw a ha2
      | inr ha2 => omega

/-- One bucket event preserves the bucket invariant, provided the event
consumes a nonnegative amount. -/
theorem stepTB_inv (o : TokenBucketOptions) (hv : validate o = true) (s : BucketState)
    (e : TBEvent) (hs : BucketInv o s) (he : eventAmountNonneg e = true) :
    BucketInv o (stepTB o s e) := by
  obtain ⟨h0, h1, hw⟩ := hs
  obtain ⟨hcap, hfill, hwin, hfc, hinit⟩ := validate_facts o hv
  cases e with
  | consume now amount =>
      simp only [eventAmountNonneg, decide_eq_true_eq] at he
      simp only [stepTB]
      have hb := consume_tokens_bounds o now amount s h0 h1 he
      have hp := consume_preserves o now amount s
      exact ⟨hb.1, hb.2, by rw [hp.1]; exact hw⟩
  | consumeAsync now amount =>
      simp only [eventAmountNonneg, decide_eq_true_eq] at he
      simp only [stepTB]
      exact consumeAsync_inv o now amount s h0 h1 hw he
  | tick now =>
      simp only [stepTB]
      split
      · exact tick_inv o now s h0 h1 hw (by omega) (by omega)
      · exact ⟨h0, h1, hw⟩
  | forceWait now d =>
      simp only [stepTB, forceWait]
      split
      · exact ⟨h0, h1, hw⟩
      · exact ⟨le_refl 0, by show (0:Int) ≤ o.capacity; omega, hw⟩
  | forceEnd now =>
      simp only [stepTB]
      split
      · split
        · exact forceEnd_inv o now s hw (by omega)
        · exact ⟨h0, h1, hw⟩
      · exact ⟨h0, h1, hw⟩

/-- A run of nonnegative-amount events preserves the bucket invariant. -/
theorem runTB_inv (o : TokenBucketOptions) (hv : validate o = true) (evs : List TBEvent) :
    ∀ (s : BucketState), BucketInv o s → (∀ e ∈ evs, eventAmountNonneg e = true) →
      BucketInv o (runTB o s evs) := by
  induction evs with
  | nil =>
      intro s hs _
      exact hs
  | cons e rest ih =>
      intro s hs hn
      exact ih _ (stepTB_inv o hv s e hs (hn e (List.mem_cons_self _ _)))
        (fun x hx => hn x (List.mem_cons_of_mem _ hx))

/-- The freshly constructed bucket satisfies the invariant. -/
theorem initState_inv (o : TokenBucketOptions) (now : Int) (hv : validate o = true) :
    BucketInv o (initState o now) := by
  obtain ⟨hcap, hfill, hwin, hfc, hinit⟩ := validate_facts o hv
  cases hi : o.initialTokens with
  | none =>
      refine ⟨?_, ?_, by simp [initState]⟩ <;> simp [initState, hi] <;> omega
  | some i =>
      have hi2 := hinit i hi
      refine ⟨?_, ?_, by simp [initState]⟩ <;> simp [initState, hi] <;> omega

/-! ## Claim C5 -/

/-- Claim C5 counterexample: consume accepts any number, and a call with
the negative amount -1 pushes the token count of a full default bucket to
11, above its capacity of 10, because tokens >= -1 holds and tokens - (-1)
adds a token. -/
theorem negative_consume_exceeds_capacity :
    validate demoOptions = true
    ∧ (runTB demoOptions (initState demoOptions 0) [TBEvent.consume 0 (-1)]).tokens = 11
    ∧ demoOptions.capacity = 10 := by decide

/-- Claim C5 (amended): for every TokenBucket constructed with valid
options and every sequence of consume, consumeAsync, refill-tick and
forced-pause events IN WHICH EVERY CONSUMED AMOUNT IS NONNEGATIVE, the
token count always satisfies 0 ≤ tokens ≤ capacity.  Every prefix of a
trace is itself a trace, so quantifying over traces covers every
intermediate state. -/
theorem tokens_within_bounds (o : TokenBucketOptions) (now : Int) (evs : List TBEvent)
    (hv : validate o = true) (hn : ∀ e ∈ evs, eventAmountNonneg e = true) :
    0 ≤ (runTB o (initState o now) evs).tokens
    ∧ (runTB o (initState o now) evs).tokens ≤ o.capacity := by
  have h := runTB_inv o hv evs (initState o now) (initState_inv o now hv) hn
  exact ⟨h.1, h.2.1⟩

/-- Witness for claim C5: a run of the default bucket through a consume,
a tick and a consumeAsync stays within bounds. -/
theorem tokens_within_bounds_witness :
    0 ≤ (runTB demoOptions (initState demoOptions 0)
        [TBEvent.consume 0 1, TBEvent.tick 100, TBEvent.consumeAsync 100 1]).tokens
    ∧ (runTB demoOptions (initState demoOptions 0)
        [TBEvent.consume 0 1, TBEvent.tick 100, TBEvent.consumeAsync 100 1]).tokens
      ≤ demoOptions.capacity := by
  exact tokens_within_bounds demoOptions 0
    [TBEvent.consume 0 1, TBEvent.tick 100, TBEvent.consumeAsync 100 1]
    (by decide) (by decide)

/-! ## Claim C3 -/

/-- A pre-elapse event keeps the bucket paused. -/
theorem stepTB_paused (o : TokenBucketOptions) (t : Int) (s : BucketState) (e : TBEvent)
    (hp : PausedAt t s) (he : preElapse t e = true) : PausedAt t (stepTB o s e) := by
  obtain ⟨hf, htok, htm, hr⟩ := hp
  cases e with
  | consume now amount =>
      simp only [preElapse, decide_eq_true_eq] at he
      simp only [stepTB, consume_fails_when_paused o now amount t s ⟨hf, htok, htm, hr⟩ he]
      exact ⟨hf, htok, htm, hr⟩
  | consumeAsync now amount =>
      simp only [preElapse, decide_eq_true_eq] at he
      simp only [stepTB, consumeAsync_paused o now amount t s ⟨hf, htok, htm, hr⟩ he]
      exact ⟨hf, htok, htm, hr⟩
  | tick now =>
      simp only [stepTB, htm, if_false]
      exact ⟨hf, htok, htm, hr⟩
  | forceWait now d =>
      simp only [stepTB, forceWait, hf, if_true]
      exact ⟨hf, htok, htm, hr⟩
  | forceEnd now =>
      simp only [preElapse, decide_eq_true_eq] at he
      simp only [stepTB, hr]
      rw [if_neg he]
      exact ⟨hf, htok, htm, hr⟩

/-- A run of pre-elapse events keeps the bucket paused. -/
theorem runTB_paused (o : TokenBucketOptions) (t : Int) (evs : List TBEvent) :
    ∀ (s : BucketState), PausedAt t s → (∀ e ∈ evs, preElapse t e = true) →
      PausedAt t (runTB o s evs) := by
  induction evs with
  | nil =>
      intro s hs _
      exact hs
  | cons e rest ih =>
      intro s hs hn
      exact ih _ (stepTB_paused o t s e hs (hn e (List.mem_cons_self _ _)))
        (fun x hx => hn x (List.mem_cons_of_mem _ hx))

/-- Observable facts about the forced-resume callback: it clears the
forced flag, restarts the timer, restores the tokens to capacity when no
waiter is queued, and hands tokens to queued waiters otherwise. -/
theorem forceEnd_props (o : TokenBucketOptions) (now : Int) (s : BucketState)
    (hcap : 0 < o.capacity) :
    (forceEnd o now s).forced = false
    ∧ (forceEnd o now s).timerOn = true
    ∧ (forceEnd o now s).resumeAt = none
    ∧ (s.waitQueue = [] → (forceEnd o now s).tokens = o.capacity)
    ∧ (s.waitQueue ≠ [] →
        (forceEnd o now s).waitQueue.length < s.waitQueue.length) := by
  refine ⟨rfl, ?_, rfl, ?_, ?_⟩
  · show (tryResolveWaiting o now
      (startInternal o now { s with tokens := o.capacity })).timerOn = true
    exact resolveWaitingGo_timerOn o now _ _ rfl
  · intro hq
    show (tryResolveWaiting o now
      (startInternal o now { s with tokens := o.capacity })).tokens = o.capacity
    simp [tryResolveWaiting, startInternal, hq, resolveWaitingGo]
  · intro hq
    show (tryResolveWaiting o now
        (startInternal o now { s with tokens := o.capacity })).waitQueue.length
      < s.waitQueue.length
    cases hswq : s.waitQueue with
    | nil => exact absurd hswq hq
    | cons a rest =>
        simp only [tryResolveWaiting, startInternal, hswq]
        rw [resolveWaitingGo]
        rw [if_pos (by show (0:Int) < o.capacity; exact hcap)]
        have hcw := (consume_preserves o now a
          { s with tokens := o.capacity, nextRefillAt := now + o.windowInMs,
                   timerOn := true, waitQueue := rest }).1
        have hlen := resolveWaitingGo_length o now rest _ hcw
        simp only [List.length_cons]
        omega

/-- A call of forceWaitUntilMilisecondsPassed during an ongoing forced
pause is a no-op. -/
theorem forceWait_noop (o : TokenBucketOptions) (now d : Int) (s : BucketState)
    (h : s.forced = true) : forceWait o now d s = s := by
  simp [forceWait, h]

/-- Claim C3 (amended): forceWaitUntilMilisecondsPassed(d) called at
instant now while no forced pause is ongoing zeroes the tokens, stops the
refill timer, raises the forced flag and schedules the resume at
now + d; through every sequence of events happening strictly before the
scheduled resume (each consuming at least one token) the bucket stays
paused with zero tokens; no consume OF A POSITIVE AMOUNT can succeed in
any such state (a consume of amount 0 vacuously succeeds, see the
counterexample); a second forceWaitUntilMilisecondsPassed during the pause
is a no-op; and when the resume callback fires at exactly now + d the
forced flag clears, the timer restarts, tokens equal capacity when no
waiter is queued, and queued waiters are given a chance to resolve. -/
theorem forced_pause_behavior (o : TokenBucketOptions) (s0 : BucketState)
    (now d : Int) (evs : List TBEvent)
    (hv : validate o = true) (hnf : s0.forced = false)
    (hevs : ∀ e ∈ evs, preElapse (now + d) e = true) :
    (forceWait o now d s0).tokens = 0
    ∧ (forceWait o now d s0).timerOn = false
    ∧ (forceWait o now d s0).forced = true
    ∧ (forceWait o now d s0).resumeAt = some (now + d)
    ∧ PausedAt (now + d) (runTB o (forceWait o now d s0) evs)
    ∧ (∀ (t2 a : Int), 1 ≤ a →
        (consume o t2 a (runTB o (forceWait o now d s0) evs)).1 = false)
    ∧ (∀ (t2 d2 : Int), forceWait o t2 d2 (runTB o (forceWait o now d s0) evs)
        = runTB o (forceWait o now d s0) evs)
    ∧ stepTB o (runTB o (forceWait o now d s0) evs) (TBEvent.forceEnd (now + d))
        = forceEnd o (now + d) (runTB o (forceWait o now d s0) evs)
    ∧ (forceEnd o (now + d) (runTB o (forceWait o now d s0) evs)).forced = false
    ∧ (forceEnd o (now + d) (runTB o (forceWait o now d s0) evs)).timerOn = true
    ∧ ((runTB o (forceWait o now d s0) evs).waitQueue = [] →
        (forceEnd o (now + d) (runTB o (forceWait o now d s0) evs)).tokens = o.capacity)
    ∧ ((runTB o (forceWait o now d s0) evs).waitQueue ≠ [] →
        (forceEnd o (now + d) (runTB o (forceWait o now d s0) evs)).waitQueue.length
          < (runTB o (forceWait o now d s0) evs).waitQueue.length) := by
  obtain ⟨hcap, hfill, hwin, hfc, hinit⟩ := validate_facts o hv
  have hp0 : PausedAt (now + d) (forceWait o now d s0) := by
    refine ⟨?_, ?_, ?_, ?_⟩ <;> simp [forceWait, hnf]
  have hrun : PausedAt (now + d) (runTB o (forceWait o now d s0) evs) :=
    runTB_paused o (now + d) evs _ hp0 hevs
  have hfe := forceEnd_props o (now + d) (runTB o (forceWait o now d s0) evs) hcap
  refine ⟨hp0.2.1, hp0.2.2.1, hp0.1, hp0.2.2.2, hrun, ?_, ?_, ?_, hfe.1, hfe.2.1,
    hfe.2.2.2.1, hfe.2.2.2.2⟩
  · intro t2 a ha
    rw [consume_fails_when_paused o t2 a (now + d) _ hrun ha]
  · intro t2 d2
    exact forceWait_noop o t2 d2 _ hrun.1
  · simp [stepTB, hrun.2.2.2]

/-- Claim C3 counterexample: while the forced pause is ongoing (well
before the 1000 ms delay has elapsed), a consume of amount 0 succeeds,
so the claim that no consume can succeed before d milliseconds elapse
fails as literally stated. -/
theorem consume_zero_succeeds_during_pause :
    (forceWait demoOptions 0 1000 (initState demoOptions 0)).forced = true
    ∧ (consume demoOptions 5 0 (forceWait demoOptions 0 1000 (initState demoOptions 0))).1
      = true := by decide

/-- Witness for claim C3: the default bucket forced idle for 1000 ms at
instant 0, with one failing consume attempt at instant 100 during the
pause. -/
theorem forced_pause_behavior_witness :
    (forceWait demoOptions 0 1000 (initState demoOptions 0)).tokens = 0
    ∧ (forceWait demoOptions 0 1000 (initState demoOptions 0)).timerOn = false
    ∧ (forceWait demoOptions 0 1000 (initState demoOptions 0)).forced = true
    ∧ (forceWait demoOptions 0 1000 (initState demoOptions 0)).resumeAt = some (0 + 1000)
    ∧ PausedAt (0 + 1000) (runTB demoOptions (forceWait demoOptions 0 1000
        (initState demoOptions 0)) [TBEvent.consume 100 1])
    ∧ (∀ (t2 a : Int), 1 ≤ a →
        (consume demoOptions t2 a (runTB demoOptions (forceWait demoOptions 0 1000
          (initState demoOptions 0)) [TBEvent.consume 100 1])).1 = false)
    ∧ (∀ (t2 d2 : Int), forceWait demoOptions t2 d2 (runTB demoOptions
          (forceWait demoOptions 0 1000 (initState demoOptions 0)) [TBEvent.consume 100 1])
        = runTB demoOptions (forceWait demoOptions 0 1000 (initState demoOptions 0))
            [TBEvent.consume 100 1])
    ∧ stepTB demoOptions (runTB demoOptions (forceWait demoOptions 0 1000
          (initState demoOptions 0)) [TBEvent.consume 100 1]) (TBEvent.forceEnd (0 + 1000))
        = forceEnd demoOptions (0 + 1000) (runTB demoOptions (forceWait demoOptions 0 1000
            (initState demoOptions 0)) [TBEvent.consume 100 1])
    ∧ (forceEnd demoOptions (0 + 1000) (runTB demoOptions (forceWait demoOptions 0 1000
          (initState demoOptions 0)) [TBEvent.consume 100 1])).forced = false
    ∧ (forceEnd demoOptions (0 + 1000) (runTB demoOptions (forceWait demoOptions 0 1000
          (initState demoOptions 0)) [TBEvent.consume 100 1])).timerOn = true
    ∧ ((runTB demoOptions (forceWait demoOptions 0 1000 (initState demoOptions 0))
          [TBEvent.consume 100 1]).waitQueue = [] →
        (forceEnd demoOptions (0 + 1000) (runTB demoOptions (forceWait demoOptions 0 1000
          (initState demoOptions 0)) [TBEvent.consume 100 1])).tokens = demoOptions.capacity)
    ∧ ((runTB demoOptions (forceWait demoOptions 0 1000 (initState demoOptions 0))
          [TBEvent.consume 100 1]).waitQueue ≠ [] →
        (forceEnd demoOptions (0 + 1000) (runTB demoOptions (forceWait demoOptions 0 1000
            (initState demoOptions 0)) [TBEvent.consume 100 1])).waitQueue.length
          < (runTB demoOptions (forceWait demoOptions 0 1000 (initState demoOptions 0))
              [TBEvent.consume 100 1]).waitQueue.length) := by
  exact forced_pause_behavior demoOptions (initState demoOptions 0) 0 1000
    [TBEvent.consume 100 1] (by decide) (by decide) (by decide)

/-! ## Claim C6 -/

/-- The admission loop keeps runningTasks within [0, concurrency]: each
admission happens only while runningTasks < concurrency. -/
theorem processTaskQueue_bounds (c : Int) :
    ∀ (n : Nat) (s : SchedulerState), s.queueLength ≤ n →
      0 ≤ s.runningTasks → s.runningTasks ≤ c →
      0 ≤ (processTaskQueue c s).runningTasks ∧ (processTaskQueue c s).runningTasks ≤ c := by
  intro n
  induction n with
  | zero =>
      intro s hq h0 h1
      rw [processTaskQueue]
      rw [dif_neg (by omega)]
      exact ⟨h0, h1⟩
  | succ n ih =>
      intro s hq h0 h1
      rw [processTaskQueue]
      by_cases h : s.runningTasks < c ∧ 0 < s.queueLength
      · rw [dif_pos h]
        exact ih { runningTasks := s.runningTasks + 1, queueLength := s.queueLength - 1 }
          (by show s.queueLength - 1 ≤ n; omega)
          (by show (0:Int) ≤ s.runningTasks + 1; omega)
          (by show s.runningTasks + 1 ≤ c; omega)
      · rw [dif_neg h]
        exact ⟨h0, h1⟩

/-- Claim C6: for every AsyncCaller with nonnegative concurrency N and
every sequence of submissions and terminal completions,
0 ≤ runningTasks ≤ N always holds, so at most N operations are in flight
at any instant.  runningTasks is incremented only inside the admission
loop and decremented only by the completion step, exactly as the
transition system encodes. -/
theorem runningTasks_within_concurrency (c : Int) (s : SchedulerState)
    (hc : 0 ≤ c) (hreach : SchedReach c s) :
    0 ≤ s.runningTasks ∧ s.runningTasks ≤ c := by
  induction hreach with
  | init => exact ⟨le_refl 0, hc⟩
  | @submit s1 hr ih =>
      exact processTaskQueue_bounds c ({ s1 with queueLength := s1.queueLength + 1 }
          : SchedulerState).queueLength _ (le_refl _) ih.1 ih.2
  | @complete s1 hr hone ih =>
      exact processTaskQueue_bounds c ({ s1 with runningTasks := s1.runningTasks - 1 }
          : SchedulerState).queueLength _ (le_refl _)
        (by show (0:Int) ≤ s1.runningTasks - 1; omega)
        (by show s1.runningTasks - 1 ≤ c; omega)

/-- Witness for claim C6: one submission to an idle scheduler with
concurrency 2 admits the task and stays within bounds. -/
theorem runningTasks_within_concurrency_witness :
    0 ≤ (submit 2 { runningTasks := 0, queueLength := 0 }).runningTasks
    ∧ (submit 2 { runningTasks := 0, queueLength := 0 }).runningTasks ≤ 2 := by
  exact runningTasks_within_concurrency 2 _ (by decide)
    (SchedReach.submit SchedReach.init)

end AsyncCallerSpec
